import Mathlib

/-!
Shallow embedding of the realtime voice session bridge of the
restaurant-model backend: `src/sessionManager.ts`, `src/aiProviders.ts`,
`src/dataStorage.ts` and the function registry of `src/functionHandlers.ts`.

JavaScript values are modelled as follows: `undefined`-able fields become
`Option`, websocket handles become `Option Bool` (the Bool records whether
`readyState === OPEN`), numbers that take part in the truncation arithmetic
become `Int`, and JavaScript truthiness of an optional string (`undefined`
and `""` are falsy) is made explicit. A function that can `throw` (or an
`async` function whose promise can reject) returns `Except String`.
Externally-performed effects (frames written to the telephony socket,
commands issued to the AI provider socket) are returned as explicit lists.
-/

namespace RestaurantBridge

/-- JavaScript truthiness of an optional string: `undefined` and `""` are
falsy, every other string is truthy. -/
def truthyStr : Option String → Bool
  | none => false
  | some s => s ≠ ""

/-- Model of `isOpen` in `sessionManager.ts`: a websocket handle is open when
it is present and its `readyState` is `OPEN`. -/
def isOpen : Option Bool → Bool
  | none => false
  | some b => b

/-! ## aiProviders.ts : the OpenAI provider -/

/-- Model of `ModelConfig` as consumed by `aiProviders.ts` (`provider`,
`model`, `name`). -/
structure ModelConfig where
  provider : String
  model : String
  name : String
deriving DecidableEq

/-- Model of `AIProviderConfig` from `aiProviders.ts`. -/
structure AIProviderConfig where
  modelConfig : ModelConfig
  apiKey : String
  instructions : String
  voice : Option String
deriving DecidableEq

/-- Mutable state of an `OpenAIProvider` instance: the `connected` flag of
the abstract `AIProvider` class and the optional websocket handle `ws`. -/
structure OpenAIProviderState where
  connected : Bool
  ws : Option Bool
deriving DecidableEq

/-- Wire messages an `OpenAIProvider` writes to its backend socket. -/
inductive OpenAIMessage where
  | sessionUpdate
  | inputAudioBufferAppend (audio : String)
  | conversationItemCreate (callId : String) (output : String)
  | responseCreate
  | conversationItemTruncate (itemId : String) (contentIndex : Nat) (audioEndMs : Int)
deriving DecidableEq

/-- A freshly constructed `OpenAIProvider`: the abstract class initialises
`connected = false` and no websocket exists before `connect()`. -/
def OpenAIProviderState.new : OpenAIProviderState :=
  { connected := false, ws := none }

/-- Model of `OpenAIProvider.isConnected`: returns `this.connected`. -/
def OpenAIProviderState.isConnected (p : OpenAIProviderState) : Bool :=
  p.connected

/-- Model of `OpenAIProvider.sendAudio`: `if (!this.connected || !this.ws)
return;` then send one `input_audio_buffer.append` message. The result is
the list of messages written to the backend socket. -/
def OpenAIProviderState.sendAudio (p : OpenAIProviderState) (audioData : String) :
    List OpenAIMessage :=
  if !p.connected || p.ws.isNone then []
  else [OpenAIMessage.inputAudioBufferAppend audioData]

/-- Model of `createAIProvider` from `aiProviders.ts`: throws
(`Except.error`) unless the configured provider is `"openai"`, otherwise
returns a new `OpenAIProvider` instance. -/
def createAIProvider (config : AIProviderConfig) : Except String OpenAIProviderState :=
  if config.modelConfig.provider ≠ "openai" then
    Except.error ("Unsupported AI provider: " ++ config.modelConfig.provider)
  else
    Except.ok OpenAIProviderState.new

/-! ## functionHandlers.ts : the registry, and sessionManager.ts :
`handleFunctionCall` (the function-call dispatcher) -/

/-- Model of a tool schema: only the `name` field takes part in dispatch
(`functions.find((f) => f.schema.name === item.name)`). -/
structure FunctionSchema where
  name : String
deriving DecidableEq

/-- Model of one entry of the function registry. The handler body is
external business logic (menu/cart/order), so it is kept abstract: it maps
parsed arguments of type `α` to either a returned payload string or a thrown
error message. -/
structure FunctionDef (α : Type) where
  schema : FunctionSchema
  handler : α → Except String String

/-- The names registered in `src/functionHandlers.ts` via `functions.push`,
in registration order. -/
def functionNames : List String :=
  ["get_menu", "get_menu_item", "add_to_cart", "get_cart",
   "update_cart_item", "remove_from_cart", "place_order",
   "get_order_status", "cancel_order"]

/-- The registry of `functionHandlers.ts`, parameterised by the external
handler bodies. -/
def restaurantRegistry {α : Type} (handlers : String → α → Except String String) :
    List (FunctionDef α) :=
  functionNames.map (fun n => ⟨⟨n⟩, handlers n⟩)

/-- The payload `JSON.stringify({error: "Invalid JSON arguments for function
call."})` returned on an argument-parse failure. -/
def invalidArgsPayload : String :=
  "\x7b\"error\":\"Invalid JSON arguments for function call.\"\x7d"

/-- The payload `JSON.stringify({error: `Error running function ...`})`
returned when the external handler throws. -/
def runErrorPayload (name msg : String) : String :=
  "\x7b\"error\":\"Error running function " ++ name ++ ": " ++ msg ++ "\"\x7d"

/-- Model of `handleFunctionCall` from `sessionManager.ts`. `jsonParse`
stands for the platform `JSON.parse` (`none` = it throws). An `Except.error`
result models the async function rejecting (the `throw new Error` on an
unknown name escapes the dispatcher); an `Except.ok` result is the value it
returns. -/
def handleFunctionCall {α : Type} (functions : List (FunctionDef α))
    (jsonParse : String → Option α) (name args : String) : Except String String :=
  match functions.find? (fun f => f.schema.name = name) with
  | none => Except.error ("No handler found for function: " ++ name)
  | some fnDef =>
    match jsonParse args with
    | none => Except.ok invalidArgsPayload
    | some a =>
      match fnDef.handler a with
      | Except.ok result => Except.ok result
      | Except.error msg => Except.ok (runErrorPayload name msg)

/-! ## sessionManager.ts : the Session record and its handlers -/

/-- The session manager's view of the attached AI provider: whether it is
connected (`isConnected()`) and whether it implements the optional
`truncate` capability (`session.aiProvider.truncate` is defined). -/
structure AIProviderHandle where
  connected : Bool
  supportsTruncate : Bool
deriving DecidableEq

/-- Model of the `Session` record of `sessionManager.ts`. Websocket handles
carry their open flag; `apiKeys` is the `{ openai?: string }` object;
`saved_config` is kept opaque. All fields default to `undefined`, so
`({} : Session)` is the reset `session = {}`. -/
structure Session where
  twilioConn : Option Bool := none
  frontendConn : Option Bool := none
  aiProvider : Option AIProviderHandle := none
  streamSid : Option String := none
  saved_config : Option String := none
  lastAssistantItem : Option String := none
  responseStartTimestamp : Option Int := none
  latestMediaTimestamp : Option Int := none
  apiKeys : Option (Option String) := none
deriving DecidableEq

/-- Control frames written to the telephony (Twilio) socket by `jsonSend`. -/
inductive TwilioFrame where
  | media (streamSid payload : String)
  | mark (streamSid : String)
  | clear (streamSid : String)
deriving DecidableEq

/-- Commands issued to the attached AI provider during barge-in handling. -/
inductive ProviderCommand where
  | truncate (itemId : String) (audioEndMs : Int)
  | interrupt
deriving DecidableEq

/-- The `audio_end_ms` computation of `handleTruncation`:
`(session.latestMediaTimestamp || 0) - (session.responseStartTimestamp || 0)`
clamped below at `0` (`elapsedMs > 0 ? elapsedMs : 0`). -/
def audioEndMsOf (latestMediaTimestamp responseStartTimestamp : Option Int) : Int :=
  let elapsedMs := latestMediaTimestamp.getD 0 - responseStartTimestamp.getD 0
  if elapsedMs > 0 then elapsedMs else 0

/-- Everything one invocation of `handleTruncation` does: the updated
session, the commands issued to the provider and the frames written to the
telephony socket. -/
structure TruncationResult where
  session : Session
  providerCommands : List ProviderCommand
  twilioFrames : List TwilioFrame
deriving DecidableEq

/-- Model of `handleTruncation` from `sessionManager.ts`, the handler of the
provider's `speechStarted` event. Returns early when `lastAssistantItem` is
falsy (absent or `""`) or `responseStartTimestamp` is `undefined`; otherwise
issues `truncate`/`interrupt` to a connected provider, emits a `clear` frame
via `jsonSend` when the telephony leg is present and `streamSid` is truthy
(present and non-empty, per `session.twilioConn && session.streamSid`) and
the socket is open, and clears `lastAssistantItem` and
`responseStartTimestamp`. -/
def handleTruncation (s : Session) : TruncationResult :=
  if !truthyStr s.lastAssistantItem || s.responseStartTimestamp.isNone then
    ⟨s, [], []⟩
  else
    let audio_end_ms := audioEndMsOf s.latestMediaTimestamp s.responseStartTimestamp
    let providerCommands :=
      match s.aiProvider with
      | some p =>
        if p.connected then
          if p.supportsTruncate && truthyStr s.lastAssistantItem then
            [ProviderCommand.truncate (s.lastAssistantItem.getD "") audio_end_ms]
          else
            [ProviderCommand.interrupt]
        else []
      | none => []
    let twilioFrames :=
      match s.twilioConn, s.streamSid with
      | some ws, some sid =>
        if sid ≠ "" && isOpen (some ws) then [TwilioFrame.clear sid] else []
      | _, _ => []
    ⟨{ s with lastAssistantItem := none, responseStartTimestamp := none },
     providerCommands, twilioFrames⟩

/-- Model of `handleAIAudio` from `sessionManager.ts`: on a provider `audio`
event, record `responseStartTimestamp` if unset, update `lastAssistantItem`
when an `itemId` is given, and relay a `media` frame plus a `mark` frame to
the telephony socket. -/
def handleAIAudio (audioData : String) (itemId : Option String) (s : Session) :
    Session × List TwilioFrame :=
  if s.twilioConn.isNone || !truthyStr s.streamSid then (s, [])
  else
    let s :=
      if s.responseStartTimestamp.isNone then
        { s with responseStartTimestamp := some (s.latestMediaTimestamp.getD 0) }
      else s
    let s :=
      match itemId with
      | some i => if i ≠ "" then { s with lastAssistantItem := some i } else s
      | none => s
    let sid := s.streamSid.getD ""
    let frames :=
      if isOpen s.twilioConn then [TwilioFrame.media sid audioData, TwilioFrame.mark sid]
      else []
    (s, frames)

/-- Model of `cleanupAIProvider` from `sessionManager.ts`: close and drop the
provider reference; if neither the telephony nor the frontend leg is
attached, reset the whole session (`session = {}`). This is exactly what the
provider `error` and `close` event handlers run. -/
def cleanupAIProvider (s : Session) : Session :=
  let s := if s.aiProvider.isSome then { s with aiProvider := none } else s
  if s.twilioConn.isNone && s.frontendConn.isNone then {} else s

/-- Model of the telephony-leg `close` callback registered in
`handleCallConnection` (`sessionManager.ts` lines 41–51): run
`cleanupAIProvider`, close the telephony socket, clear the per-call fields,
and reset the whole session when no frontend (observer) leg remains. -/
def twilioCloseHandler (s : Session) : Session :=
  let s := cleanupAIProvider s
  let s := { s with twilioConn := none, aiProvider := none, streamSid := none,
                    lastAssistantItem := none, responseStartTimestamp := none,
                    latestMediaTimestamp := none }
  if s.frontendConn.isNone then {} else s

/-! ## dataStorage.ts and the telephony `start`/`media` handlers -/

/-- Model of a `Cart` from `dataStorage.ts` (fields irrelevant to the bridge
are summarised: items as names, total in cents). -/
structure Cart where
  sessionId : String
  items : List String
  total : Int
deriving DecidableEq

/-- Model of an `Order` from `dataStorage.ts` (the fields the bridge-level
claims need). -/
structure Order where
  orderId : String
  sessionId : String
  status : String
deriving DecidableEq

/-- Set a key in an association-list model of a JavaScript `Map`. -/
def assocSet {β : Type} (m : List (String × β)) (k : String) (v : β) : List (String × β) :=
  if m.any (fun kv => kv.1 = k) then
    m.map (fun kv => if kv.1 = k then (k, v) else kv)
  else m ++ [(k, v)]

/-- The external mutable stores the session manager touches on a telephony
`start` event: the cart map and order map of `dataStorage.ts`, the
`currentSessionId` of `functionHandlers.ts` (set via `setSessionId`), and
the `callSidBySessionId` map of `callContext` (set via
`linkSessionToCallSid`). -/
structure Stores where
  carts : List (String × Cart)
  orders : List (String × Order)
  currentSessionId : String
  callSidBySessionId : List (String × String)
deriving DecidableEq

/-- Model of `cartStorage.clearCart`: `carts.delete(sessionId)`. -/
def clearCart (carts : List (String × Cart)) (sessionId : String) : List (String × Cart) :=
  carts.filter (fun kv => kv.1 ≠ sessionId)

/-- Model of `linkSessionToCallSid`: a no-op unless both ids are truthy. -/
def linkSessionToCallSid (m : List (String × String)) (sessionId callSid : Option String) :
    List (String × String) :=
  match sessionId, callSid with
  | some sid, some cid =>
    if sid ≠ "" && cid ≠ "" then assocSet m sid cid else m
  | _, _ => m

/-- Model of `tryConnectAIProvider` from `sessionManager.ts`, up to the point
where the provider object is created and stored (the actual socket connect is
asynchronous; `connected` becomes true only on the later `open` event).
`provider` is the `getCurrentModel().provider` configuration value. A
`createAIProvider` throw is caught and leaves the session unchanged. -/
def tryConnectAIProvider (provider : String) (s : Session) : Session :=
  if s.twilioConn.isNone || !truthyStr s.streamSid || s.apiKeys.isNone then s
  else if (match s.aiProvider with | some p => p.connected | none => false) then s
  else if !truthyStr (s.apiKeys.getD none) then s
  else if provider ≠ "openai" then s
  else { s with aiProvider := some { connected := false, supportsTruncate := true } }

/-- Model of the `"start"` branch of `handleTwilioMessage`: record the new
`streamSid`, link it to the `callSid`, reset the timing fields, clear the
cart for the new stream id and make it the active business session
(`setSessionId`), then attempt the provider connection. The order store is
not touched by the source. -/
def handleTwilioStart (provider streamSid : String) (callSid : Option String)
    (s : Session) (st : Stores) : Session × Stores :=
  let s := { s with streamSid := some streamSid }
  let st := { st with callSidBySessionId :=
    linkSessionToCallSid st.callSidBySessionId s.streamSid callSid }
  let s := { s with latestMediaTimestamp := some 0, lastAssistantItem := none,
                    responseStartTimestamp := none }
  let st :=
    if truthyStr s.streamSid then
      { st with carts := clearCart st.carts streamSid, currentSessionId := streamSid }
    else st
  (tryConnectAIProvider provider s, st)

/-- Model of the `"media"` branch of `handleTwilioMessage`: overwrite
`latestMediaTimestamp` with the frame's timestamp, and forward the payload to
the provider when one is attached and connected. The second component lists
the payloads handed to `sendAudio`. -/
def handleTwilioMedia (timestamp : Int) (payload : String) (s : Session) :
    Session × List String :=
  let s := { s with latestMediaTimestamp := some timestamp }
  let sent :=
    match s.aiProvider with
    | some p => if p.connected then [payload] else []
    | none => []
  (s, sent)

/-! ## Helper lemmas -/

/-- The clamped elapsed-time computation equals `max 0 (latest - start)` when
both timestamps are present. -/
theorem audioEndMsOf_eq_max (lm rs : Int) :
    audioEndMsOf (some lm) (some rs) = max 0 (lm - rs) := by
  unfold audioEndMsOf
  simp only [Option.getD_some]
  split <;> omega

/-- A name outside `functionNames` finds no entry in the restaurant
registry. -/
theorem restaurantRegistry_find_none {α : Type}
    (handlers : String → α → Except String String) (name : String)
    (h : name ∉ functionNames) :
    (restaurantRegistry handlers).find? (fun f => f.schema.name = name) = none := by
  apply List.find?_eq_none.mpr
  intro f hf
  simp only [restaurantRegistry, List.mem_map] at hf
  obtain ⟨n, hn, rfl⟩ := hf
  simp only [decide_eq_true_eq]
  exact fun hEq => h (hEq ▸ hn)

/-! ## Claim theorems -/

/-- C1 counterexample: a session that is Speaking per the spec
(`responseStartTimestamp` set, `lastAssistantItemId` absent — the spec says
it is only optionally set), with a connected provider lacking `truncate` and
an open telephony leg, processes `speechStarted` as a complete no-op: zero
`interrupt` calls (the claim demands exactly one), no `clear` frame, and the
session is returned unchanged — `responseStartTimestamp` stays set. -/
theorem handleTruncation_noop_when_item_absent :
    handleTruncation
      { twilioConn := some true, aiProvider := some ⟨true, false⟩,
        streamSid := some "S1", responseStartTimestamp := some 1000,
        latestMediaTimestamp := some 1450 } =
    ⟨{ twilioConn := some true, aiProvider := some ⟨true, false⟩,
       streamSid := some "S1", responseStartTimestamp := some 1000,
       latestMediaTimestamp := some 1450 }, [], []⟩ := rfl

/-- C1 (amended): when the session is Speaking with `lastAssistantItemId`
actually set (non-empty) in addition to `responseStartTimestamp`, the
provider attached and connected, and the telephony socket open with a truthy
(non-empty) `streamSid`, processing `speechStarted` issues exactly one
`truncate` call (when the provider supports it) and otherwise exactly one
`interrupt` call and zero `truncate` calls, emits one `clear` frame to the
telephony leg, and clears both `lastAssistantItem` and
`responseStartTimestamp` (back to Idle). -/
theorem handleTruncation_bargeIn (s : Session) (itemId sid : String) (t0 : Int)
    (p : AIProviderHandle)
    (hItem : s.lastAssistantItem = some itemId) (hne : itemId ≠ "")
    (hResp : s.responseStartTimestamp = some t0)
    (hProv : s.aiProvider = some p) (hConn : p.connected = true)
    (hTw : s.twilioConn = some true) (hSid : s.streamSid = some sid)
    (hSidNe : sid ≠ "") :
    (handleTruncation s).providerCommands =
      (if p.supportsTruncate then
        [ProviderCommand.truncate itemId
          (audioEndMsOf s.latestMediaTimestamp (some t0))]
       else [ProviderCommand.interrupt])
    ∧ (handleTruncation s).twilioFrames = [TwilioFrame.clear sid]
    ∧ (handleTruncation s).session.lastAssistantItem = none
    ∧ (handleTruncation s).session.responseStartTimestamp = none := by
  unfold handleTruncation
  rw [hItem, hResp, hProv, hTw, hSid]
  cases hCap : p.supportsTruncate <;>
    simp [truthyStr, hne, hConn, hCap, isOpen, hSidNe]

/-- C1 witness: the amended barge-in theorem applied at a concrete Speaking
session whose provider lacks `truncate`: exactly one `interrupt`, one `clear`
frame, and both timing fields cleared. -/
theorem handleTruncation_bargeIn_witness :
    (handleTruncation
      { twilioConn := some true, aiProvider := some ⟨true, false⟩,
        streamSid := some "S1", lastAssistantItem := some "I1",
        responseStartTimestamp := some 1000,
        latestMediaTimestamp := some 1450 }).providerCommands =
      [ProviderCommand.interrupt]
    ∧ (handleTruncation
      { twilioConn := some true, aiProvider := some ⟨true, false⟩,
        streamSid := some "S1", lastAssistantItem := some "I1",
        responseStartTimestamp := some 1000,
        latestMediaTimestamp := some 1450 }).twilioFrames =
      [TwilioFrame.clear "S1"] := by
  have h := handleTruncation_bargeIn
    { twilioConn := some true, aiProvider := some ⟨true, false⟩,
      streamSid := some "S1", lastAssistantItem := some "I1",
      responseStartTimestamp := some 1000, latestMediaTimestamp := some 1450 }
    "I1" "S1" 1000 ⟨true, false⟩ rfl (by decide) rfl rfl rfl rfl rfl (by decide)
  exact ⟨by simpa using h.1, h.2.1⟩

/-- C2: the elapsed-milliseconds value passed to `truncate` is exactly
`max 0 (latestMediaTimestamp - responseStartTimestamp)` for every pair of
timestamps present when `speechStarted` is processed. -/
theorem handleTruncation_elapsed_clamped (s : Session) (itemId : String)
    (rs lm : Int) (p : AIProviderHandle)
    (hItem : s.lastAssistantItem = some itemId) (hne : itemId ≠ "")
    (hResp : s.responseStartTimestamp = some rs)
    (hLm : s.latestMediaTimestamp = some lm)
    (hProv : s.aiProvider = some p) (hConn : p.connected = true)
    (hCap : p.supportsTruncate = true) :
    (handleTruncation s).providerCommands =
      [ProviderCommand.truncate itemId (max 0 (lm - rs))] := by
  unfold handleTruncation
  rw [hItem, hResp, hProv, hLm]
  simp [truthyStr, hne, hConn, hCap, audioEndMsOf_eq_max]

/-- C2 witness: with `responseStartTimestamp = 1000` the truncate value is
450 at `latestMediaTimestamp = 1450` and clamps to 0 at
`latestMediaTimestamp = 900`. -/
theorem handleTruncation_elapsed_witness :
    (handleTruncation
      { aiProvider := some ⟨true, true⟩, lastAssistantItem := some "I1",
        responseStartTimestamp := some 1000,
        latestMediaTimestamp := some 1450 }).providerCommands =
      [ProviderCommand.truncate "I1" 450]
    ∧ (handleTruncation
      { aiProvider := some ⟨true, true⟩, lastAssistantItem := some "I1",
        responseStartTimestamp := some 1000,
        latestMediaTimestamp := some 900 }).providerCommands =
      [ProviderCommand.truncate "I1" 0] := by
  constructor
  · exact (handleTruncation_elapsed_clamped
      { aiProvider := some ⟨true, true⟩, lastAssistantItem := some "I1",
        responseStartTimestamp := some 1000, latestMediaTimestamp := some 1450 }
      "I1" 1000 1450 ⟨true, true⟩ rfl (by decide) rfl rfl rfl rfl rfl).trans
      (by norm_num)
  · exact (handleTruncation_elapsed_clamped
      { aiProvider := some ⟨true, true⟩, lastAssistantItem := some "I1",
        responseStartTimestamp := some 1000, latestMediaTimestamp := some 900 }
      "I1" 1000 900 ⟨true, true⟩ rfl (by decide) rfl rfl rfl rfl rfl).trans
      (by norm_num)

/-- C3 counterexample: dispatching `"does_not_exist"` does not return a
structured error payload — `handleFunctionCall` throws (`Except.error`,
i.e. its promise rejects) out of the dispatcher. -/
theorem dispatch_does_not_exist_throws :
    handleFunctionCall (restaurantRegistry (fun _ (_ : Unit) => Except.ok "\x7b\x7d"))
      (fun _ => some ()) "does_not_exist" "\x7b\x7d" =
    Except.error "No handler found for function: does_not_exist" := rfl

/-- C3 (amended): dispatching a name with no registered handler makes
`handleFunctionCall` throw an `Error` referencing that name (so its promise
rejects; the `functionCall` event handler catches and logs it, so the
session survives, but no structured error payload is returned). -/
theorem dispatch_unknown_name_error {α : Type}
    (handlers : String → α → Except String String)
    (jsonParse : String → Option α) (name args : String)
    (h : name ∉ functionNames) :
    handleFunctionCall (restaurantRegistry handlers) jsonParse name args =
      Except.error ("No handler found for function: " ++ name) := by
  unfold handleFunctionCall
  rw [restaurantRegistry_find_none handlers name h]

/-- C3 witness: the unknown-name theorem applied to the concrete name
`"does_not_exist"`. -/
theorem dispatch_unknown_name_error_witness :
    handleFunctionCall (restaurantRegistry (fun _ (_ : Unit) => Except.ok "\x7b\x7d"))
      (fun _ => some ()) "does_not_exist" "\x7bnot json" =
    Except.error ("No handler found for function: " ++ "does_not_exist") :=
  dispatch_unknown_name_error (fun _ (_ : Unit) => Except.ok "\x7b\x7d")
    (fun _ => some ()) "does_not_exist" "\x7bnot json" (by decide)

/-- C4: for a dispatch that reaches a registered handler, an argument string
`JSON.parse` rejects yields the structured `invalidArgsPayload` (a JSON
string with an `error` field), and a handler that throws yields the
structured `runErrorPayload`; in both cases `handleFunctionCall` returns
normally instead of propagating an exception. -/
theorem dispatch_failures_return_payload {α : Type}
    (functions : List (FunctionDef α)) (jsonParse : String → Option α)
    (name args : String) (fnDef : FunctionDef α)
    (hFind : functions.find? (fun f => f.schema.name = name) = some fnDef) :
    (jsonParse args = none →
       handleFunctionCall functions jsonParse name args = Except.ok invalidArgsPayload)
    ∧ (∀ (a : α) (msg : String),
       jsonParse args = some a → fnDef.handler a = Except.error msg →
       handleFunctionCall functions jsonParse name args =
         Except.ok (runErrorPayload name msg)) := by
  unfold handleFunctionCall
  rw [hFind]
  constructor
  · intro hp
    simp [hp]
  · intro a msg hp hh
    simp [hp, hh]

/-- C4 witness: dispatching `get_menu` with the unparsable argument string
`"\x7bnot json"` returns the invalid-arguments payload, and dispatching it
with parsable arguments against a handler that throws `"boom"` returns the
handler-error payload. -/
theorem dispatch_failures_return_payload_witness :
    handleFunctionCall (restaurantRegistry (fun _ (_ : Unit) => Except.error "boom"))
      (fun s => if s = "\x7b\x7d" then some () else none) "get_menu" "\x7bnot json" =
      Except.ok invalidArgsPayload
    ∧ handleFunctionCall (restaurantRegistry (fun _ (_ : Unit) => Except.error "boom"))
      (fun s => if s = "\x7b\x7d" then some () else none) "get_menu" "\x7b\x7d" =
      Except.ok (runErrorPayload "get_menu" "boom") := by
  constructor
  · exact (dispatch_failures_return_payload
      (restaurantRegistry (fun _ (_ : Unit) => Except.error "boom"))
      (fun s => if s = "\x7b\x7d" then some () else none) "get_menu" "\x7bnot json"
      ⟨⟨"get_menu"⟩, fun _ => Except.error "boom"⟩ rfl).1 rfl
  · exact (dispatch_failures_return_payload
      (restaurantRegistry (fun _ (_ : Unit) => Except.error "boom"))
      (fun s => if s = "\x7b\x7d" then some () else none) "get_menu" "\x7b\x7d"
      ⟨⟨"get_menu"⟩, fun _ => Except.error "boom"⟩ rfl).2 () "boom" rfl rfl

/-- C5: evaluation of the `start` handler at the failing input. A `start`
event for stream `"S1"` clears the cart keyed `"S1"` and makes `"S1"` the
active business session, but leaves the order store exactly as it was: the
order keyed by `"S1"`-scoped session survives, although the source logs
`Cleared cart and order data for new call session`. -/
theorem handleTwilioStart_keeps_orders :
    (handleTwilioStart "openai" "S1" none
      { twilioConn := some true, apiKeys := some (some "sk-key") }
      { carts := [("S1", ⟨"S1", ["pizza_margherita"], 1499⟩)],
        orders := [("o1", ⟨"o1", "S1", "pending"⟩)],
        currentSessionId := "default_session", callSidBySessionId := [] }).2 =
    { carts := [],
      orders := [("o1", ⟨"o1", "S1", "pending"⟩)],
      currentSessionId := "S1", callSidBySessionId := [] } := rfl

/-- C6 counterexample: a `media` frame carrying timestamp 100 processed while
`latestMediaTimestamp = 500` resets it backward to 100. -/
theorem handleTwilioMedia_timestamp_regresses :
    ((handleTwilioMedia 100 "payload"
        { latestMediaTimestamp := some 500 }).1).latestMediaTimestamp = some 100
    ∧ (100 : Int) < 500 :=
  ⟨rfl, by norm_num⟩

/-- C6 (amended): `latestMediaTimestamp` is unconditionally overwritten with
every `media` frame's timestamp — it is not monotone, so a frame with a
smaller timestamp does reset it backward. -/
theorem handleTwilioMedia_overwrites_timestamp (timestamp : Int) (payload : String)
    (s : Session) :
    ((handleTwilioMedia timestamp payload s).1).latestMediaTimestamp =
      some timestamp := rfl

/-- C7: the telephony-leg close callback is idempotent — running it twice
from any session state yields exactly the state of running it once (and, the
model being a total function, it never throws). -/
theorem twilioCloseHandler_idempotent (s : Session) :
    twilioCloseHandler (twilioCloseHandler s) = twilioCloseHandler s := by
  rcases s with ⟨tw, fr, ai, sid, cfg, li, rs, lm, keys⟩
  cases fr <;> cases tw <;> cases ai <;>
    simp [twilioCloseHandler, cleanupAIProvider]

/-- C8: while the telephony leg is attached, a provider `error` or `close`
event (which runs `cleanupAIProvider`) clears only the provider reference:
the telephony connection, the `streamSid` and the frontend (observer)
connection are untouched. -/
theorem cleanupAIProvider_frame (s : Session) (c : Bool)
    (h : s.twilioConn = some c) :
    (cleanupAIProvider s).aiProvider = none
    ∧ (cleanupAIProvider s).twilioConn = s.twilioConn
    ∧ (cleanupAIProvider s).streamSid = s.streamSid
    ∧ (cleanupAIProvider s).frontendConn = s.frontendConn := by
  rcases s with ⟨tw, fr, ai, sid, cfg, li, rs, lm, keys⟩
  cases h
  cases ai <;> simp [cleanupAIProvider]

/-- C8 witness: the frame theorem applied at a concrete session with the
telephony leg attached. -/
theorem cleanupAIProvider_frame_witness :
    (cleanupAIProvider
      { twilioConn := some true, frontendConn := some true,
        aiProvider := some ⟨true, true⟩, streamSid := some "S1" }).aiProvider = none
    ∧ (cleanupAIProvider
      { twilioConn := some true, frontendConn := some true,
        aiProvider := some ⟨true, true⟩, streamSid := some "S1" }).twilioConn =
      some true
    ∧ (cleanupAIProvider
      { twilioConn := some true, frontendConn := some true,
        aiProvider := some ⟨true, true⟩, streamSid := some "S1" }).streamSid =
      some "S1"
    ∧ (cleanupAIProvider
      { twilioConn := some true, frontendConn := some true,
        aiProvider := some ⟨true, true⟩, streamSid := some "S1" }).frontendConn =
      some true :=
  cleanupAIProvider_frame
    { twilioConn := some true, frontendConn := some true,
      aiProvider := some ⟨true, true⟩, streamSid := some "S1" } true rfl

/-- C9: `sendAudio` on a provider whose `isConnected()` is `false` is a
no-op: it raises nothing (the model is total) and writes no message to the
backend socket. -/
theorem sendAudio_noop_when_disconnected (p : OpenAIProviderState)
    (audioData : String) (h : p.isConnected = false) :
    p.sendAudio audioData = [] := by
  unfold OpenAIProviderState.sendAudio
  unfold OpenAIProviderState.isConnected at h
  simp [h]

/-- C9 witness: a freshly created provider is not connected, and `sendAudio`
on it sends nothing. -/
theorem sendAudio_noop_witness :
    OpenAIProviderState.new.sendAudio "UklGRg==" = [] :=
  sendAudio_noop_when_disconnected OpenAIProviderState.new "UklGRg==" rfl

/-- C10: `createAIProvider` throws exactly when the configured provider is
not `"openai"`, and otherwise returns a provider instance whose
`isConnected()` is initially `false`. -/
theorem createAIProvider_spec (config : AIProviderConfig) :
    match createAIProvider config with
    | Except.error _ => config.modelConfig.provider ≠ "openai"
    | Except.ok p => config.modelConfig.provider = "openai" ∧ p.isConnected = false := by
  unfold createAIProvider
  by_cases h : config.modelConfig.provider = "openai"
  · simp [h, OpenAIProviderState.isConnected, OpenAIProviderState.new]
  · simp [h]

end RestaurantBridge
